import Mathlib

/-!
Shallow embedding of the league-table scraper (src/web_scrapping.py) and
proofs of the specification claims about it.

The embedding covers:
* the pydantic schema `LeagueTableEntry` / `LeagueTableData` with its field
  validators (web_scrapping.py lines 57-111);
* the retry-governed extraction loop of `scrape_league_table`
  (lines 139-286), with the external fetch+extract call abstracted as a
  function from attempt index to an outcome, and the observable effects
  (attempt count, backoff waits, file writes) recorded in a trace;
* the configuration helpers `get_league_env_var_name` (lines 508-512) and
  the per-league URL resolution of `main` (lines 576-589);
* the batch orchestration of `main` (lines 571-643), restricted to the
  parts the claims are about (per-league outcomes and the results map).

Python strings are modelled through their character lists, so that the
string operations used by the source (upper, lower, strip, replace,
rstrip) evaluate by kernel reduction.
-/

/-- Python str.strip(): drop leading and trailing whitespace. -/
def pyStrip (s : String) : String :=
  ⟨((s.data.dropWhile Char.isWhitespace).reverse.dropWhile Char.isWhitespace).reverse⟩

/-- Python str.upper(): uppercase every character. -/
def pyUpper (s : String) : String := ⟨s.data.map Char.toUpper⟩

/-- Python str.lower(): lowercase every character. -/
def pyLower (s : String) : String := ⟨s.data.map Char.toLower⟩

/-- Python str.replace(c, r) for a single-character pattern: replace every
occurrence of the character c by the string r. -/
def replaceChar (s : String) (c : Char) (r : String) : String :=
  ⟨s.data.flatMap (fun a => if a = c then r.data else [a])⟩

/-- Python str.rstrip(c) for the single character c: drop every trailing
occurrence of c. -/
def rstripChar (s : String) (c : Char) : String :=
  ⟨(s.data.reverse.dropWhile (fun a => a = c)).reverse⟩

/-- Raw (unvalidated) standings record: the fields of one extracted row,
before the pydantic validators run (web_scrapping.py lines 57-68). -/
structure RawEntry where
  position : Int
  team_name : String
  matches_played : Int
  wins : Int
  draws : Int
  losses : Int
  goals_for : Int
  goals_against : Int
  goal_difference : Int
  points : Int
deriving DecidableEq

/-- Raw (unvalidated) extraction payload (web_scrapping.py lines 94-99,
before validation). -/
structure RawPayload where
  sport : String
  league : String
  season : Option String
  standings : List RawEntry
deriving DecidableEq

/-- Validated standings record (web_scrapping.py class LeagueTableEntry). -/
structure LeagueTableEntry where
  position : Int
  team_name : String
  matches_played : Int
  wins : Int
  draws : Int
  losses : Int
  goals_for : Int
  goals_against : Int
  goal_difference : Int
  points : Int
deriving DecidableEq

/-- Validated extraction result (web_scrapping.py class LeagueTableData). -/
structure LeagueTableData where
  sport : String
  league : String
  season : Option String
  standings : List LeagueTableEntry
deriving DecidableEq

/-- Validator validate_position (web_scrapping.py lines 73-78):
position must be at least 1. -/
def validate_position (v : Int) : Option Int :=
  if v < 1 then none else some v

/-- Validator validate_points (web_scrapping.py lines 80-85):
points cannot be negative. -/
def validate_points (v : Int) : Option Int :=
  if v < 0 then none else some v

/-- Validator validate_team_name (web_scrapping.py lines 87-92):
team name must be non-empty after stripping, and is returned stripped. -/
def validate_team_name (v : String) : Option String :=
  if pyStrip v = "" then none else some (pyStrip v)

/-- Construction of a LeagueTableEntry from a raw record: all three field
validators must pass; the other fields are taken over unchanged. -/
def mkLeagueTableEntry (r : RawEntry) : Option LeagueTableEntry :=
  match validate_position r.position, validate_points r.points,
        validate_team_name r.team_name with
  | some pos, some pts, some name =>
      some ⟨pos, name, r.matches_played, r.wins, r.draws, r.losses,
            r.goals_for, r.goals_against, r.goal_difference, pts⟩
  | _, _, _ => none

/-- Validation of the standings list: every record must validate, in order. -/
def validateStandings : List RawEntry → Option (List LeagueTableEntry)
  | [] => some []
  | r :: rs =>
    match mkLeagueTableEntry r, validateStandings rs with
    | some e, some es => some (e :: es)
    | _, _ => none

/-- Construction of LeagueTableData from a raw payload, i.e. the
validation step `LeagueTableData(**result.extracted_data)`
(web_scrapping.py line 244). -/
def mkLeagueTableData (p : RawPayload) : Option LeagueTableData :=
  match validateStandings p.standings with
  | some es => some ⟨p.sport, p.league, p.season, es⟩
  | none => none

/-- The entry a valid raw record validates to: identical fields with the
team name stripped of surrounding whitespace. -/
def entryStrip (r : RawEntry) : LeagueTableEntry :=
  ⟨r.position, pyStrip r.team_name, r.matches_played, r.wins, r.draws,
   r.losses, r.goals_for, r.goals_against, r.goal_difference, r.points⟩

/-- Outcome of one external fetch+extract call
(`crawler.arun`, web_scrapping.py lines 235-236):
either the call raises (error), or it returns with no extracted data
(`result.extracted_data` falsy, line 239), or it returns a raw payload. -/
inductive FetchOutcome where
  | error
  | noData
  | payload (p : RawPayload)
deriving DecidableEq

/-- A file written by scrape_league_table: the success artifact with the
validated data (lines 253-259) or the debug artifact with the raw
unvalidated payload (lines 268-271). -/
inductive FileWrite where
  | success (d : LeagueTableData)
  | debugRaw (p : RawPayload)
deriving DecidableEq

/-- Observable behaviour of one scrape_league_table call: the returned
value, the number of fetch+extract attempts issued, the backoff waits
performed (in order, in seconds), and the files written (in order). -/
structure ScrapeTrace where
  result : Option LeagueTableData
  attempts : Nat
  waits : List Nat
  writes : List FileWrite
deriving DecidableEq

/-- The attempt loop `for attempt in range(retries)` of scrape_league_table
(web_scrapping.py lines 199-285). `idx` is the 0-based attempt index
`attempt`; `remaining` is how many iterations of the range are left
(initially `retries`), so the Python backoff guard `attempt < retries - 1`
(line 279) is exactly `remaining ≠ 0` after this iteration is consumed.
Per iteration, mirroring the source:
* the fetch+extract call raises → failed attempt; if attempts remain,
  wait `2 ** attempt` (line 280) before the next one;
* no extracted data → failed attempt, no wait (lines 274-275);
* a payload that validates → write the success artifact when
  `save_to_file` is set, and return the validated data (lines 243-262);
* a payload that fails validation → write the debug artifact with the raw
  payload when `save_to_file` is set, then continue with the next
  iteration without waiting (lines 264-272). -/
def scrapeAux (fetch : Nat → FetchOutcome) (save : Bool) (idx : Nat) :
    Nat → ScrapeTrace
  | 0 => ⟨none, 0, [], []⟩
  | remaining + 1 =>
    match fetch idx with
    | FetchOutcome.payload p =>
      match mkLeagueTableData p with
      | some d => ⟨some d, 1, [], if save then [FileWrite.success d] else []⟩
      | none =>
        let rest := scrapeAux fetch save (idx + 1) remaining
        ⟨rest.result, rest.attempts + 1, rest.waits,
         (if save then [FileWrite.debugRaw p] else []) ++ rest.writes⟩
    | FetchOutcome.noData =>
      let rest := scrapeAux fetch save (idx + 1) remaining
      ⟨rest.result, rest.attempts + 1, rest.waits, rest.writes⟩
    | FetchOutcome.error =>
      let rest := scrapeAux fetch save (idx + 1) remaining
      ⟨rest.result, rest.attempts + 1,
       (if remaining ≠ 0 then [2 ^ idx] else []) ++ rest.waits, rest.writes⟩

/-- scrape_league_table (web_scrapping.py lines 139-286), with the
external crawler abstracted as `fetch`. The credential check of
lines 166-169 (`os.environ.get("OPENAI_API_KEY")` absent or empty is
falsy) returns None before any attempt; otherwise the attempt loop runs
over `range(retries)` (empty when retries < 1), and None is returned
after the loop when no attempt succeeded (line 286). -/
def scrape_league_table (apiKey : Option String) (fetch : Nat → FetchOutcome)
    (retries : Int) (save : Bool) : ScrapeTrace :=
  if apiKey.getD "" = "" then ⟨none, 0, [], []⟩
  else scrapeAux fetch save 0 retries.toNat

/-- Predicate: this fetch outcome was a raised error. -/
def fetchIsError : FetchOutcome → Bool
  | FetchOutcome.error => true
  | _ => false

/-- Predicate: this fetch outcome constitutes a failed attempt
(raised error, no data, or a payload that fails validation). -/
def isFailedOutcome : FetchOutcome → Bool
  | FetchOutcome.error => true
  | FetchOutcome.noData => true
  | FetchOutcome.payload p => (mkLeagueTableData p).isNone

/-- get_league_env_var_name (web_scrapping.py lines 508-512):
`league_key.upper().replace(" ", "_").replace(".", "").replace("-", "_")`
followed by the suffix `_URL`. -/
def get_league_env_var_name (league_key : String) : String :=
  replaceChar (replaceChar (replaceChar (pyUpper league_key) ' ' "_")
      '.' "") '-' "_" ++ "_URL"

/-- Mapping claimed by the spec for the lookup key ("uppercase, spaces and
periods and hyphens replaced with a single separator, suffixed with a
fixed marker"): periods become the separator too, unlike in the source. -/
def envVarNameClaimed (league_key : String) : String :=
  replaceChar (replaceChar (replaceChar (pyUpper league_key) ' ' "_")
      '.' "_") '-' "_" ++ "_URL"

/-- Single-pass character description of get_league_env_var_name: each
character whose uppercasing is a space or hyphen becomes an underscore,
each period is dropped, every other character is uppercased; then the
suffix `_URL` is appended. -/
def envVarNameSinglePass (league_key : String) : String :=
  ⟨league_key.data.flatMap (fun c =>
      if c.toUpper = ' ' then ['_']
      else if c.toUpper = '.' then []
      else if c.toUpper = '-' then ['_']
      else [c.toUpper]) ++ ("_URL").data⟩

/-- URL slug built from the league display name in main
(web_scrapping.py line 585):
`league_name.lower().replace(' ', '-').replace('.', '')`. -/
def leagueSlug (displayName : String) : String :=
  replaceChar (replaceChar (pyLower displayName) ' ' "-") '.' ""

/-- Per-league URL resolution in main (web_scrapping.py lines 576-589):
look up the league's derived environment variable (empty default); if the
value is non-empty use it verbatim; otherwise, if a base URL is
configured, join the base URL with trailing slashes stripped, a slash,
and the display-name slug; otherwise the league is unresolved (skipped). -/
def resolveLeagueUrl (env : String → String) (baseUrl : String)
    (leagueKey displayName : String) : Option String :=
  let url := env (get_league_env_var_name leagueKey)
  if url ≠ "" then some url
  else if baseUrl ≠ "" then
    some (rstripChar baseUrl '/' ++ "/" ++ leagueSlug displayName)
  else none

/-- One entry of the EUROPEAN_LEAGUES catalog (web_scrapping.py
lines 289-505): canonical key, display name, country, tier. -/
structure League where
  key : String
  name : String
  country : String
  tier : Nat
deriving DecidableEq

/-- get_leagues_by_tier (web_scrapping.py lines 515-517): keep the leagues
whose tier equals the requested one. -/
def get_leagues_by_tier (leagues : List League) (tier : Nat) : List League :=
  leagues.filter (fun lg => lg.tier = tier)

/-- Processing of one league in main's loop (web_scrapping.py
lines 571-602): resolve the URL; an unresolved league is skipped (none);
a resolved league is scraped with retries=3 and save_to_file=True. -/
def processLeague (apiKey : Option String) (env : String → String)
    (baseUrl : String) (fetch : String → Nat → FetchOutcome)
    (lg : League) : Option ScrapeTrace :=
  (resolveLeagueUrl env baseUrl lg.key lg.name).map
    (fun url => scrape_league_table apiKey (fetch url) 3 true)

/-- The `results` mapping built by main (web_scrapping.py lines 604-612):
one entry per league that was actually scraped (skipped leagues get no
entry), holding the scrape result (none = failed after retries). -/
def batchResults (apiKey : Option String) (env : String → String)
    (baseUrl : String) (fetch : String → Nat → FetchOutcome)
    (leagues : List League) : List (String × Option LeagueTableData) :=
  leagues.filterMap (fun lg =>
    (processLeague apiKey env baseUrl fetch lg).map
      (fun t => (lg.key, t.result)))

/-- Total number of fetch+extract attempts performed by a batch run. -/
def batchAttempts (apiKey : Option String) (env : String → String)
    (baseUrl : String) (fetch : String → Nat → FetchOutcome)
    (leagues : List League) : Nat :=
  (leagues.map (fun lg =>
    match processLeague apiKey env baseUrl fetch lg with
    | none => 0
    | some t => t.attempts)).sum

/-- All files written by a batch run, in order. -/
def batchWrites (apiKey : Option String) (env : String → String)
    (baseUrl : String) (fetch : String → Nat → FetchOutcome)
    (leagues : List League) : List FileWrite :=
  leagues.flatMap (fun lg =>
    match processLeague apiKey env baseUrl fetch lg with
    | none => []
    | some t => t.writes)

/-- Concrete valid raw standings record (the extraction payload of the
spec scenario: position 1, team A, 10 played, 8 wins, 1 draw, 1 loss,
20 for, 5 against, +15, 25 points). -/
def goodRawEntry : RawEntry := ⟨1, "A", 10, 8, 1, 1, 20, 5, 15, 25⟩

/-- Concrete valid raw payload from the spec scenario. -/
def goodPayload : RawPayload := ⟨"Football", "Premier League", none, [goodRawEntry]⟩

/-- The validated entry goodRawEntry validates to. -/
def goodEntry : LeagueTableEntry := ⟨1, "A", 10, 8, 1, 1, 20, 5, 15, 25⟩

/-- The validated data goodPayload validates to. -/
def goodData : LeagueTableData :=
  ⟨"Football", "Premier League", none, [goodEntry]⟩

/-- Concrete raw payload with a negative points value in its only
standings record. -/
def badPayload : RawPayload :=
  ⟨"Football", "Premier League", none, [⟨1, "A", 10, 8, 1, 1, 20, 5, 15, -3⟩]⟩

/-- Concrete raw payload whose records all validate but whose positions
are neither distinct nor ascending (2, 2, 1). -/
def unsortedPayload : RawPayload :=
  ⟨"Football", "Premier League", none,
   [⟨2, "B", 10, 7, 2, 1, 18, 6, 12, 23⟩,
    ⟨2, "C", 10, 6, 3, 1, 15, 7, 8, 21⟩,
    ⟨1, "A", 10, 8, 1, 1, 20, 5, 15, 25⟩]⟩

/-- The validated data unsortedPayload validates to. -/
def unsortedData : LeagueTableData :=
  ⟨"Football", "Premier League", none,
   [⟨2, "B", 10, 7, 2, 1, 18, 6, 12, 23⟩,
    ⟨2, "C", 10, 6, 3, 1, 15, 7, 8, 21⟩,
    ⟨1, "A", 10, 8, 1, 1, 20, 5, 15, 25⟩]⟩

/-- Fetch behaviour of the spec scenario: the call raises on the first two
attempts and returns the valid payload on the third. -/
def failTwiceFetch : Nat → FetchOutcome := fun i =>
  if i < 2 then FetchOutcome.error else FetchOutcome.payload goodPayload

/-- Fetch behaviour that raises on every attempt. -/
def alwaysFailFetch : Nat → FetchOutcome := fun _ => FetchOutcome.error

/-- Fetch behaviour whose first attempt returns a payload that fails
validation and whose later attempts raise. -/
def invalidThenErrorFetch : Nat → FetchOutcome := fun i =>
  if i = 0 then FetchOutcome.payload badPayload else FetchOutcome.error

/-- Concrete environment for the batch examples: only the Premier League
override variable is set. -/
def exampleEnv : String → String := fun v =>
  if v = "PREMIER_LEAGUE_URL" then "https://ex.com/pl" else ""

/-- Premier League catalog entry (web_scrapping.py lines 291-296). -/
def premierLeague : League := ⟨"Premier League", "Premier League", "England", 1⟩

/-- La Liga catalog entry (web_scrapping.py lines 297-302). -/
def laLiga : League := ⟨"La Liga", "La Liga", "Spain", 1⟩

/-- Crawler behaviour for the batch examples: every attempt at every URL
raises. -/
def exampleFetch : String → Nat → FetchOutcome := fun _ _ => FetchOutcome.error

/-- A raw record whose three validated fields are in range validates to
exactly its stripped form. -/
theorem mkLeagueTableEntry_ok (r : RawEntry) (h1 : 1 ≤ r.position)
    (h2 : 0 ≤ r.points) (h3 : pyStrip r.team_name ≠ "") :
    mkLeagueTableEntry r = some (entryStrip r) := by
  have hp : ¬ r.position < 1 := by omega
  have hq : ¬ r.points < 0 := by omega
  simp [mkLeagueTableEntry, validate_position, validate_points,
        validate_team_name, hp, hq, h3, entryStrip]

/-- A standings list whose records all satisfy the field constraints
validates to its entrywise stripped form. -/
theorem validateStandings_all_valid (l : List RawEntry)
    (h : ∀ r ∈ l, 1 ≤ r.position ∧ 0 ≤ r.points ∧ pyStrip r.team_name ≠ "") :
    validateStandings l = some (l.map entryStrip) := by
  induction l with
  | nil => rfl
  | cons r rs ih =>
    obtain ⟨hr1, hr2, hr3⟩ := h r (List.mem_cons_self r rs)
    have hrs := ih (fun x hx => h x (List.mem_cons_of_mem r hx))
    simp [validateStandings, mkLeagueTableEntry_ok r hr1 hr2 hr3, hrs]

/-- C1: for every payload in which every standings entry has position at
least 1, points at least 0, and a team name that is non-empty after
stripping whitespace, validation succeeds and produces the standings of
the input, in the same length and order, with each team name stripped of
surrounding whitespace and all other fields unchanged. -/
theorem validation_accepts_valid_payloads (p : RawPayload)
    (h : ∀ r ∈ p.standings,
      1 ≤ r.position ∧ 0 ≤ r.points ∧ pyStrip r.team_name ≠ "") :
    mkLeagueTableData p =
      some ⟨p.sport, p.league, p.season, p.standings.map entryStrip⟩ := by
  simp [mkLeagueTableData, validateStandings_all_valid p.standings h]

/-- C1 witness: the spec scenario payload validates to its validated
model. -/
theorem validation_accepts_valid_payloads_witness :
    mkLeagueTableData goodPayload = some goodData := by
  have h := validation_accepts_valid_payloads goodPayload (by decide)
  simpa [goodPayload, goodData, goodRawEntry, goodEntry, entryStrip] using h

/-- Every entry produced by a successful record validation satisfies the
field constraints enforced by the validators. -/
theorem mkLeagueTableEntry_inv (r : RawEntry) (e : LeagueTableEntry)
    (h : mkLeagueTableEntry r = some e) :
    1 ≤ e.position ∧ 0 ≤ e.points ∧ e.team_name ≠ "" := by
  by_cases hp : r.position < 1 <;> by_cases hq : r.points < 0 <;>
      by_cases hn : pyStrip r.team_name = "" <;>
    simp [mkLeagueTableEntry, validate_position, validate_points,
          validate_team_name, hp, hq, hn] at h
  subst h
  exact ⟨show 1 ≤ r.position by omega, show 0 ≤ r.points by omega, hn⟩

/-- Every entry of a successfully validated standings list satisfies the
field constraints enforced by the validators. -/
theorem validateStandings_mem_inv (l : List RawEntry)
    (es : List LeagueTableEntry) (h : validateStandings l = some es) :
    ∀ e ∈ es, 1 ≤ e.position ∧ 0 ≤ e.points ∧ e.team_name ≠ "" := by
  induction l generalizing es with
  | nil =>
    simp [validateStandings] at h
    subst h
    intro e he
    cases he
  | cons r rs ih =>
    cases hr : mkLeagueTableEntry r with
    | none => simp [validateStandings, hr] at h
    | some e0 =>
      cases hrs : validateStandings rs with
      | none => simp [validateStandings, hr, hrs] at h
      | some es0 =>
        simp [validateStandings, hr, hrs] at h
        subst h
        intro e he
        rcases List.mem_cons.mp he with rfl | hmem
        · exact mkLeagueTableEntry_inv r e hr
        · exact ih es0 hrs e hmem

/-- C2 counterexample: validation accepts a payload whose standings
positions are neither pairwise distinct nor in ascending order
(positions 2, 2, 1), so the claimed table invariant does not hold of
every accepted LeagueTableData value. -/
theorem validation_accepts_unsorted_positions :
    mkLeagueTableData unsortedPayload = some unsortedData ∧
    ¬ ((unsortedData.standings.map LeagueTableEntry.position).Nodup ∧
       List.Chain' (fun a b => a.position ≤ b.position)
         unsortedData.standings) := by
  refine ⟨by decide, by decide⟩

/-- C2 amended: every LeagueTableData value accepted by validation
satisfies the per-entry constraints (position at least 1, points
non-negative, non-empty team name); distinctness and ascending ordering
of positions are not enforced by validation. -/
theorem validated_entries_satisfy_field_constraints (p : RawPayload)
    (d : LeagueTableData) (h : mkLeagueTableData p = some d) :
    ∀ e ∈ d.standings, 1 ≤ e.position ∧ 0 ≤ e.points ∧ e.team_name ≠ "" := by
  cases hval : validateStandings p.standings with
  | none => simp [mkLeagueTableData, hval] at h
  | some es =>
    simp [mkLeagueTableData, hval] at h
    subst h
    exact validateStandings_mem_inv p.standings es hval

/-- C2 witness: the validated spec-scenario entry satisfies the per-entry
constraints, obtained through the amended theorem at the spec-scenario
payload. -/
theorem validated_entries_satisfy_field_constraints_witness :
    1 ≤ goodEntry.position ∧ 0 ≤ goodEntry.points ∧ goodEntry.team_name ≠ "" :=
  validated_entries_satisfy_field_constraints goodPayload goodData
    (by decide) goodEntry (by decide)

/-- The attempt loop performs at most as many attempts as iterations
remain. -/
theorem scrapeAux_attempts_le (fetch : Nat → FetchOutcome) (save : Bool) :
    ∀ rem idx, (scrapeAux fetch save idx rem).attempts ≤ rem := by
  intro rem
  induction rem with
  | zero => intro idx; simp [scrapeAux]
  | succ n ih =>
    intro idx
    have hrec := ih (idx + 1)
    cases hf : fetch idx with
    | payload p =>
      cases hmk : mkLeagueTableData p with
      | some d => simp only [scrapeAux, hf, hmk]; omega
      | none => simp only [scrapeAux, hf, hmk]; omega
    | noData => simp only [scrapeAux, hf]; omega
    | error => simp only [scrapeAux, hf]; omega

/-- When every attempt the loop can issue fails, the loop returns none. -/
theorem scrapeAux_allFailed_result (fetch : Nat → FetchOutcome) (save : Bool) :
    ∀ rem idx,
      (∀ i, idx ≤ i → i < idx + rem → isFailedOutcome (fetch i) = true) →
      (scrapeAux fetch save idx rem).result = none := by
  intro rem
  induction rem with
  | zero => intro idx h; simp [scrapeAux]
  | succ n ih =>
    intro idx h
    have hidx : isFailedOutcome (fetch idx) = true :=
      h idx (Nat.le_refl idx) (by omega)
    have htail := ih (idx + 1) (fun i h1 h2 => h i (by omega) (by omega))
    simp only [scrapeAux]
    cases hf : fetch idx with
    | payload p =>
      rw [hf] at hidx
      simp [isFailedOutcome, Option.isNone_iff_eq_none] at hidx
      simp [hidx, htail]
    | noData => simp [htail]
    | error => simp [htail]

/-- C3: with retries = N, no attempt occurs when N is less than 1, at most
N attempts occur in total, and when every attempt fails the function
returns an absent result (none) to the caller. -/
theorem retry_budget_bounds_attempts (apiKey : Option String)
    (fetch : Nat → FetchOutcome) (retries : Int) (save : Bool) :
    (retries < 1 → (scrape_league_table apiKey fetch retries save).attempts = 0) ∧
    (scrape_league_table apiKey fetch retries save).attempts ≤ retries.toNat ∧
    ((∀ i, i < retries.toNat → isFailedOutcome (fetch i) = true) →
      (scrape_league_table apiKey fetch retries save).result = none) := by
  unfold scrape_league_table
  by_cases hk : apiKey.getD "" = ""
  · simp [hk]
  · rw [if_neg hk]
    refine ⟨?_, ?_, ?_⟩
    · intro hr
      have h0 : retries.toNat = 0 := by omega
      rw [h0]
      rfl
    · exact scrapeAux_attempts_le fetch save retries.toNat 0
    · intro h
      exact scrapeAux_allFailed_result fetch save retries.toNat 0
        (fun i h1 h2 => h i (by omega))

/-- C3 witness: with a credential set, an always-raising fetch and
retries = 2, the call returns none. -/
theorem retry_budget_bounds_attempts_witness :
    (scrape_league_table (some "k") alwaysFailFetch 2 false).result = none :=
  (retry_budget_bounds_attempts (some "k") alwaysFailFetch 2 false).2.2
    (by decide)

/-- Backoff waits of the attempt loop: one wait of 2 ^ i for exactly the
executed attempt indices i whose fetch+extract call raised and which are
not the final attempt the budget allows. -/
theorem scrapeAux_waits_eq (fetch : Nat → FetchOutcome) (save : Bool) :
    ∀ rem idx,
      (scrapeAux fetch save idx rem).waits =
        ((List.range' idx (scrapeAux fetch save idx rem).attempts).filter
          (fun i => fetchIsError (fetch i) && decide (i + 1 < idx + rem))).map
          (fun i => 2 ^ i) := by
  intro rem
  induction rem with
  | zero => intro idx; simp [scrapeAux]
  | succ n ih =>
    intro idx
    have ih' := ih (idx + 1)
    have harith : idx + 1 + n = idx + (n + 1) := by omega
    simp only [harith] at ih'
    cases hf : fetch idx with
    | payload p =>
      cases hmk : mkLeagueTableData p with
      | some d =>
        simp only [scrapeAux, hf, hmk]
        simp [List.range'_succ, List.filter_cons, hf, fetchIsError]
      | none =>
        simp only [scrapeAux, hf, hmk, List.range'_succ, List.filter_cons]
        have hpred : (fetchIsError (FetchOutcome.payload p) &&
            decide (idx + 1 < idx + (n + 1))) = false := rfl
        rw [hpred, if_neg (show ¬ (false = true) by simp)]
        exact ih'
    | noData =>
      simp only [scrapeAux, hf, List.range'_succ, List.filter_cons]
      have hpred : (fetchIsError FetchOutcome.noData &&
          decide (idx + 1 < idx + (n + 1))) = false := rfl
      rw [hpred, if_neg (show ¬ (false = true) by simp)]
      exact ih'
    | error =>
      simp only [scrapeAux, hf, List.range'_succ, List.filter_cons]
      by_cases hn : n = 0
      · subst hn
        have hlt : ¬ (idx + 1 < idx + (0 + 1)) := by omega
        simp [scrapeAux, fetchIsError, hlt]
      · have hlt : idx + 1 < idx + (n + 1) := by omega
        simp only [hf, fetchIsError, Bool.true_and, hlt, decide_eq_true_eq,
          if_pos, List.map_cons, hn, ne_eq, not_false_iff, if_true, ih']
        simp [hn]

/-- C4 counterexample: with retries = 2 and a first attempt that fails by
validation failure (so it is a failed attempt and not the final one), no
backoff wait occurs at all — the waits list is empty and in particular
does not contain the claimed wait of 2 ^ 0 = 1 time unit. -/
theorem validation_failure_skips_backoff_wait :
    isFailedOutcome (invalidThenErrorFetch 0) = true ∧
    (scrape_league_table (some "k") invalidThenErrorFetch 2 true).attempts = 2 ∧
    (scrape_league_table (some "k") invalidThenErrorFetch 2 true).waits = [] ∧
    1 ∉ (scrape_league_table (some "k") invalidThenErrorFetch 2 true).waits := by
  refine ⟨by decide, by decide, by decide, by decide⟩

/-- C4 amended: a backoff wait of 2 ^ attempt_index occurs exactly after
the executed attempts whose fetch+extract call raised an error and which
are not the final attempt the retry budget allows; failed attempts due to
validation failure or an absent payload proceed to the next attempt with
no wait. The two concrete scenarios of the claim hold: with retries = 3
and a fetch that raises twice then succeeds, the successful result is
returned after exactly 2 backoff waits (1 unit then 2 units); with
retries = 2 and a fetch that always raises, the call returns none after
exactly 2 attempts and 1 backoff wait. -/
theorem backoff_waits_follow_fetch_errors (key : String)
    (fetch : Nat → FetchOutcome) (retries : Int) (save : Bool)
    (hk : key ≠ "") :
    (scrape_league_table (some key) fetch retries save).waits =
      ((List.range (scrape_league_table (some key) fetch retries save).attempts).filter
        (fun i => fetchIsError (fetch i) && decide (i + 1 < retries.toNat))).map
        (fun i => 2 ^ i) ∧
    (scrape_league_table (some key) failTwiceFetch 3 true).result = some goodData ∧
    (scrape_league_table (some key) failTwiceFetch 3 true).attempts = 3 ∧
    (scrape_league_table (some key) failTwiceFetch 3 true).waits = [1, 2] ∧
    (scrape_league_table (some key) alwaysFailFetch 2 true).result = none ∧
    (scrape_league_table (some key) alwaysFailFetch 2 true).attempts = 2 ∧
    (scrape_league_table (some key) alwaysFailFetch 2 true).waits = [1] := by
  have hset : ∀ (f : Nat → FetchOutcome) (r : Int) (s : Bool),
      scrape_league_table (some key) f r s = scrapeAux f s 0 r.toNat := by
    intro f r s
    simp [scrape_league_table, hk]
  simp only [hset]
  refine ⟨?_, by decide, by decide, by decide, by decide, by decide, by decide⟩
  have h := scrapeAux_waits_eq fetch save retries.toNat 0
  simpa [List.range_eq_range'] using h

/-- C4 witness: the first scenario of the amended claim at a concrete
credential — two waits of 1 and 2 units with retries = 3 and a fetch that
raises twice then succeeds. -/
theorem backoff_waits_follow_fetch_errors_witness :
    (scrape_league_table (some "k") failTwiceFetch 3 true).waits = [1, 2] :=
  (backoff_waits_follow_fetch_errors "k" alwaysFailFetch 2 false
    (by decide)).2.2.2.1

/-- A standings list containing a record with negative points never
validates. -/
theorem validateStandings_none_of_negative (l : List RawEntry)
    (h : ∃ e ∈ l, e.points < 0) : validateStandings l = none := by
  induction l with
  | nil => simp at h
  | cons r rs ih =>
    rcases h with ⟨e, he, hneg⟩
    rcases List.mem_cons.mp he with rfl | hmem
    · have hr : mkLeagueTableEntry e = none := by
        unfold mkLeagueTableEntry
        rw [show validate_points e.points = none from by
          simp [validate_points, hneg]]
        cases validate_position e.position <;>
          cases validate_team_name e.team_name <;> rfl
      simp [validateStandings, hr]
    · have hrs := ih ⟨e, hmem, hneg⟩
      cases hr : mkLeagueTableEntry r <;> simp [validateStandings, hr, hrs]

/-- A payload containing a standings record with negative points never
validates. -/
theorem mkLeagueTableData_none_of_negative (p : RawPayload)
    (h : ∃ e ∈ p.standings, e.points < 0) : mkLeagueTableData p = none := by
  simp [mkLeagueTableData, validateStandings_none_of_negative p.standings h]

/-- C5: for every payload with a negative points value in some standings
entry, validation fails; in the extractor (with file saving on) the
attempt that received this payload writes exactly the debug artifact with
the raw unvalidated payload — no success artifact — and is treated as a
failed attempt: the loop continues with the remaining budget and no
exception propagates (the call is total and returns the trace shown). -/
theorem negative_points_fails_validation_writes_debug (p : RawPayload)
    (fetch : Nat → FetchOutcome) (retries : Int) (key : String)
    (hneg : ∃ e ∈ p.standings, e.points < 0)
    (hf : fetch 0 = FetchOutcome.payload p) (hk : key ≠ "")
    (hr : 1 ≤ retries) :
    mkLeagueTableData p = none ∧
    scrape_league_table (some key) fetch retries true =
      ⟨(scrapeAux fetch true 1 (retries.toNat - 1)).result,
       (scrapeAux fetch true 1 (retries.toNat - 1)).attempts + 1,
       (scrapeAux fetch true 1 (retries.toNat - 1)).waits,
       FileWrite.debugRaw p ::
         (scrapeAux fetch true 1 (retries.toNat - 1)).writes⟩ := by
  have hmk := mkLeagueTableData_none_of_negative p hneg
  refine ⟨hmk, ?_⟩
  have hstep : scrape_league_table (some key) fetch retries true =
      scrapeAux fetch true 0 retries.toNat := by
    simp [scrape_league_table, hk]
  have ht : retries.toNat = (retries.toNat - 1) + 1 := by omega
  rw [hstep, ht]
  simp [scrapeAux, hf, hmk]

/-- C5 witness: a concrete negative-points payload fails validation, and
a one-attempt scrape that receives it writes exactly the debug artifact
and returns none. -/
theorem negative_points_fails_validation_writes_debug_witness :
    mkLeagueTableData badPayload = none ∧
    scrape_league_table (some "k") (fun _ => FetchOutcome.payload badPayload)
      1 true = ⟨none, 1, [], [FileWrite.debugRaw badPayload]⟩ := by
  have h := negative_points_fails_validation_writes_debug badPayload
    (fun _ => FetchOutcome.payload badPayload) 1 "k" (by decide) rfl
    (by decide) (by decide)
  exact ⟨h.1, by rw [h.2]; decide⟩

/-- The save flag changes nothing about the attempt loop except the file
writes, and with the flag off no file is written. -/
theorem scrapeAux_save_flag (fetch : Nat → FetchOutcome) :
    ∀ rem idx,
      (scrapeAux fetch false idx rem).result =
        (scrapeAux fetch true idx rem).result ∧
      (scrapeAux fetch false idx rem).attempts =
        (scrapeAux fetch true idx rem).attempts ∧
      (scrapeAux fetch false idx rem).waits =
        (scrapeAux fetch true idx rem).waits ∧
      (scrapeAux fetch false idx rem).writes = [] := by
  intro rem
  induction rem with
  | zero => intro idx; simp [scrapeAux]
  | succ n ih =>
    intro idx
    obtain ⟨h1, h2, h3, h4⟩ := ih (idx + 1)
    cases hf : fetch idx with
    | payload p =>
      cases hmk : mkLeagueTableData p with
      | some d => simp [scrapeAux, hf, hmk]
      | none => simp [scrapeAux, hf, hmk, h1, h2, h3, h4]
    | noData => simp [scrapeAux, hf, h1, h2, h3, h4]
    | error => simp [scrapeAux, hf, h1, h2, h3, h4]

/-- C10: with save_to_file = False the call writes no file in any outcome
(neither the success artifact nor the debug artifact), and the flag
guards exactly the file writes: the result, the attempt count and the
backoff waits are the same as with save_to_file = True. -/
theorem save_flag_guards_all_writes (apiKey : Option String)
    (fetch : Nat → FetchOutcome) (retries : Int) :
    (scrape_league_table apiKey fetch retries false).writes = [] ∧
    (scrape_league_table apiKey fetch retries false).result =
      (scrape_league_table apiKey fetch retries true).result ∧
    (scrape_league_table apiKey fetch retries false).attempts =
      (scrape_league_table apiKey fetch retries true).attempts ∧
    (scrape_league_table apiKey fetch retries false).waits =
      (scrape_league_table apiKey fetch retries true).waits := by
  unfold scrape_league_table
  by_cases hk : apiKey.getD "" = ""
  · simp [hk]
  · rw [if_neg hk, if_neg hk]
    obtain ⟨h1, h2, h3, h4⟩ := scrapeAux_save_flag fetch retries.toNat 0
    exact ⟨h4, h1, h2, h3⟩

/-- C6: URL resolution for a league first looks up the derived
environment variable and uses a non-empty value verbatim; otherwise, with
a base URL configured, it joins the base URL with trailing slashes
stripped, a slash, and the display name lowercased with spaces replaced
by hyphens and periods removed; with neither source the league is
unresolved. For league "Premier League" with base URL "https://x.com"
the resolved URL is "https://x.com/premier-league". -/
theorem league_url_resolution_order (env : String → String)
    (baseUrl leagueKey displayName : String) :
    (env (get_league_env_var_name leagueKey) ≠ "" →
      resolveLeagueUrl env baseUrl leagueKey displayName =
        some (env (get_league_env_var_name leagueKey))) ∧
    (env (get_league_env_var_name leagueKey) = "" → baseUrl ≠ "" →
      resolveLeagueUrl env baseUrl leagueKey displayName =
        some (rstripChar baseUrl '/' ++ "/" ++ leagueSlug displayName)) ∧
    (env (get_league_env_var_name leagueKey) = "" → baseUrl = "" →
      resolveLeagueUrl env baseUrl leagueKey displayName = none) ∧
    resolveLeagueUrl (fun _ => "") "https://x.com" "Premier League"
      "Premier League" = some "https://x.com/premier-league" := by
  refine ⟨?_, ?_, ?_, by decide⟩
  · intro h
    simp [resolveLeagueUrl, h]
  · intro h1 h2
    simp [resolveLeagueUrl, h1, h2]
  · intro h1 h2
    simp [resolveLeagueUrl, h1, h2]

/-- C6 witness: the constructed-URL branch at a concrete configuration,
with a trailing slash stripped from the base URL. -/
theorem league_url_resolution_order_witness :
    resolveLeagueUrl (fun _ => "") "https://b.com/" "La Liga" "La Liga" =
      some "https://b.com/la-liga" := by
  have h := (league_url_resolution_order (fun _ => "") "https://b.com/"
    "La Liga" "La Liga").2.1 (by decide) (by decide)
  rw [h]
  decide

/-- C7 counterexample: for the catalog key "2. Bundesliga" the source
removes the period while the claimed mapping would replace it with the
separator, so the two disagree. -/
theorem env_var_name_drops_periods :
    get_league_env_var_name "2. Bundesliga" = "2_BUNDESLIGA_URL" ∧
    envVarNameClaimed "2. Bundesliga" = "2__BUNDESLIGA_URL" ∧
    get_league_env_var_name "2. Bundesliga" ≠
      envVarNameClaimed "2. Bundesliga" := by
  refine ⟨by decide, by decide, by decide⟩

/-- Appending a string to a string given by its character list appends the
character lists. -/
theorem mk_append_data (a : List Char) (s : String) :
    String.mk a ++ s = String.mk (a ++ s.data) := by
  cases s
  rfl

/-- Character-list form of the replace chain used by
get_league_env_var_name: it equals a single pass over the characters. -/
theorem envchain_chars (l : List Char) :
    (((l.map Char.toUpper).flatMap
        (fun a => if a = ' ' then ("_").data else [a])).flatMap
        (fun a => if a = '.' then ("").data else [a])).flatMap
        (fun a => if a = '-' then ("_").data else [a]) =
      l.flatMap (fun c =>
        if c.toUpper = ' ' then ['_']
        else if c.toUpper = '.' then []
        else if c.toUpper = '-' then ['_']
        else [c.toUpper]) := by
  induction l with
  | nil => rfl
  | cons a l ih =>
    simp only [List.map_cons, List.flatMap_cons, List.flatMap_append]
    rw [ih]
    congr 1
    by_cases h1 : a.toUpper = ' '
    · simp [h1]
    · by_cases h2 : a.toUpper = '.'
      · simp [h1, h2]
      · by_cases h3 : a.toUpper = '-'
        · simp [h1, h2, h3]
        · simp [h1, h2, h3]

/-- C7 amended: get_league_env_var_name maps a league key by uppercasing
it, turning each space and each hyphen into an underscore, removing each
period (rather than replacing it with a separator), and appending the
suffix _URL — stated as equality with an independent single-pass
character mapping. -/
theorem env_var_name_character_map (k : String) :
    get_league_env_var_name k = envVarNameSinglePass k := by
  unfold get_league_env_var_name envVarNameSinglePass replaceChar pyUpper
  rw [mk_append_data]
  exact congrArg String.mk
    (congrArg (fun l => l ++ ("_URL").data) (envchain_chars k.data))

/-- Without a credential, scrape_league_table returns immediately with no
attempt, no wait, no write and no result. -/
theorem scrape_no_credential (fetch : Nat → FetchOutcome) (retries : Int)
    (save : Bool) :
    scrape_league_table none fetch retries save = ⟨none, 0, [], []⟩ := by
  simp [scrape_league_table]

/-- Without a credential, processing a league either skips it
(unresolved URL) or records an empty trace. -/
theorem processLeague_no_credential (env : String → String)
    (baseUrl : String) (fetch : String → Nat → FetchOutcome) (lg : League) :
    processLeague none env baseUrl fetch lg = none ∨
    processLeague none env baseUrl fetch lg = some ⟨none, 0, [], []⟩ := by
  cases hres : resolveLeagueUrl env baseUrl lg.key lg.name with
  | none => exact Or.inl (by simp [processLeague, hres])
  | some url =>
    exact Or.inr (by simp [processLeague, hres, scrape_no_credential])

/-- C8: with no language-model API credential configured, a batch run
performs zero fetch+extract attempts, writes no file, and every league
that was not skipped is reported failed (an absent result) — the missing
credential aborts each extraction before any network activity. -/
theorem missing_credential_zero_attempts (env : String → String)
    (baseUrl : String) (fetch : String → Nat → FetchOutcome)
    (leagues : List League) :
    batchAttempts none env baseUrl fetch leagues = 0 ∧
    batchWrites none env baseUrl fetch leagues = [] ∧
    (batchResults none env baseUrl fetch leagues).all
      (fun e => e.2.isNone) = true := by
  refine ⟨?_, ?_, ?_⟩
  · apply List.sum_eq_zero
    intro x hx
    unfold batchAttempts at hx
    rcases List.mem_map.mp hx with ⟨lg, hlg, rfl⟩
    rcases processLeague_no_credential env baseUrl fetch lg with h | h <;>
      simp [h]
  · unfold batchWrites
    rw [List.flatMap_eq_nil_iff]
    intro lg hlg
    rcases processLeague_no_credential env baseUrl fetch lg with h | h <;>
      simp [h]
  · rw [List.all_eq_true]
    intro e he
    rcases List.mem_filterMap.mp he with ⟨lg, hlg, hg⟩
    rcases processLeague_no_credential env baseUrl fetch lg with h | h <;>
      rw [h] at hg
    · simp at hg
    · simp at hg
      rw [← hg]
      rfl

/-- Whether a league's URL resolves does not depend on the display name:
the override lookup uses only the key, and the constructed branch exists
whenever a base URL is configured. -/
theorem resolveLeagueUrl_none_name_independent (env : String → String)
    (baseUrl k n n' : String)
    (h : resolveLeagueUrl env baseUrl k n = none) :
    resolveLeagueUrl env baseUrl k n' = none := by
  unfold resolveLeagueUrl at h ⊢
  by_cases h1 : env (get_league_env_var_name k) ≠ ""
  · simp [h1] at h
  · by_cases h2 : baseUrl ≠ ""
    · simp [h1, h2] at h
    · simp [h1, h2]

/-- Outcome counts of a batch run partition the processed leagues:
unresolved (skipped) leagues plus failed results plus successful results
account for every league. -/
theorem batch_outcome_partition (apiKey : Option String)
    (env : String → String) (baseUrl : String)
    (fetch : String → Nat → FetchOutcome) :
    ∀ leagues : List League,
      leagues.countP
          (fun lg => (resolveLeagueUrl env baseUrl lg.key lg.name).isNone) +
        (batchResults apiKey env baseUrl fetch leagues).countP
          (fun e => e.2.isNone) +
        (batchResults apiKey env baseUrl fetch leagues).countP
          (fun e => e.2.isSome) = leagues.length := by
  intro leagues
  induction leagues with
  | nil => rfl
  | cons lg rest ih =>
    simp only [batchResults] at ih ⊢
    cases hres : resolveLeagueUrl env baseUrl lg.key lg.name with
    | none =>
      have hentry : Option.map (fun t => (lg.key, t.result))
          (processLeague apiKey env baseUrl fetch lg) = none := by
        simp [processLeague, hres]
      simp only [List.filterMap_cons, hentry, List.countP_cons,
        List.length_cons, hres]
      simp only [Option.isNone_none, if_true]
      omega
    | some url =>
      have hentry : Option.map (fun t => (lg.key, t.result))
          (processLeague apiKey env baseUrl fetch lg) =
          some (lg.key,
            (scrape_league_table apiKey (fetch url) 3 true).result) := by
        simp [processLeague, hres]
      simp only [List.filterMap_cons, hentry, List.countP_cons,
        List.length_cons, hres]
      cases hr : (scrape_league_table apiKey (fetch url) 3 true).result <;>
        simp [hr] <;> omega

/-- C9: in every batch run, a league whose URL cannot be resolved is
skipped with a distinct outcome — it contributes no entry to the results
mapping, while a league that failed after exhausting its retries is
present with an absent result — so the summary counts them separately:
skipped, failed and successful leagues partition the processed set. -/
theorem unconfigured_league_counted_separately (apiKey : Option String)
    (env : String → String) (baseUrl : String)
    (fetch : String → Nat → FetchOutcome) (leagues : List League) :
    leagues.countP
        (fun lg => (resolveLeagueUrl env baseUrl lg.key lg.name).isNone) +
      (batchResults apiKey env baseUrl fetch leagues).countP
        (fun e => e.2.isNone) +
      (batchResults apiKey env baseUrl fetch leagues).countP
        (fun e => e.2.isSome) = leagues.length ∧
    (∀ lg ∈ leagues, resolveLeagueUrl env baseUrl lg.key lg.name = none →
      ∀ r, (lg.key, r) ∉ batchResults apiKey env baseUrl fetch leagues) ∧
    (∀ lg ∈ leagues, ∀ url,
      resolveLeagueUrl env baseUrl lg.key lg.name = some url →
      (lg.key, (scrape_league_table apiKey (fetch url) 3 true).result) ∈
        batchResults apiKey env baseUrl fetch leagues) := by
  refine ⟨batch_outcome_partition apiKey env baseUrl fetch leagues, ?_, ?_⟩
  · intro lg hlg hnone r hmem
    rcases List.mem_filterMap.mp hmem with ⟨lg2, hlg2, heq⟩
    rcases Option.map_eq_some'.mp heq with ⟨t, hpt, hpair⟩
    have hkey : lg2.key = lg.key := congrArg Prod.fst hpair
    unfold processLeague at hpt
    rcases Option.map_eq_some'.mp hpt with ⟨url, hurl, _⟩
    rw [hkey] at hurl
    rw [resolveLeagueUrl_none_name_independent env baseUrl lg.key lg.name
      lg2.name hnone] at hurl
    cases hurl
  · intro lg hlg url hres
    exact List.mem_filterMap.mpr ⟨lg, hlg, by simp [processLeague, hres]⟩

/-- C9 witness: in a concrete two-league batch where La Liga has no
resolvable URL and the Premier League fails after its retries, La Liga
appears in no results entry (while the partition count follows from the
theorem). -/
theorem unconfigured_league_counted_separately_witness :
    ("La Liga", (none : Option LeagueTableData)) ∉
      batchResults (some "k") exampleEnv "" exampleFetch
        [premierLeague, laLiga] := by
  have h := (unconfigured_league_counted_separately (some "k") exampleEnv ""
    exampleFetch [premierLeague, laLiga]).2.1 laLiga (by decide) (by decide)
  exact h none
